import Mathlib

/-!
Verification of the delta distribution protocol in `src/redis_helper.rs` of
reddark-remix.  The Redis connection is embedded as explicit state: a store
(hash `subreddit`, key `sections`, list of published messages) together with a
schedule of per-operation transport outcomes.  Serialization of the domain
types (which live outside this module, in `crate::reddit`) is modelled from the
spec as an executable injective text codec.
-/

/-- Modelled from the spec: the closed set of lifecycle states of an entity
record (`SubredditState` in `crate::reddit`, not under src/).  `UNKNOWN` is the
default sentinel. -/
inductive SubredditState
  | UNKNOWN
  | PUBLIC
  | PRIVATE
  | RESTRICTED
  | BANNED
deriving DecidableEq, Repr

/-- Modelled from the spec: an entity record (`Subreddit` in `crate::reddit`).
`extra` stands for the descriptive attributes that are opaque to the
protocol. -/
structure Subreddit where
  name : String
  state : SubredditState
  extra : String
deriving DecidableEq, Repr

/-- Modelled from the spec: a delta (`SubredditDelta` in `crate::reddit`):
the entity record after the transition together with the state before it. -/
structure SubredditDelta where
  subreddit : Subreddit
  prev_state : SubredditState
deriving DecidableEq, Repr

/-- Modelled from the spec: the sanitized storage key ("safe name").  The
sanitization itself lives outside src/; only that it is a function of the
record's name matters here, so it is the identity on the name. -/
def safe_name (s : Subreddit) : String := s.name

/-! ### Text codec

Modelled from the spec: serde serialization of the domain types is outside
src/; the spec only fixes "structured record to text" with a round trip, the
exact encoding being an implementation detail.  We use a self-delimiting
unary-length-prefixed encoding over `List Char`. -/

def encState : SubredditState → Char
  | .UNKNOWN => 'U'
  | .PUBLIC => 'P'
  | .PRIVATE => 'V'
  | .RESTRICTED => 'R'
  | .BANNED => 'B'

def decState : Char → Option SubredditState
  | 'U' => some .UNKNOWN
  | 'P' => some .PUBLIC
  | 'V' => some .PRIVATE
  | 'R' => some .RESTRICTED
  | 'B' => some .BANNED
  | _ => none

def encLen : Nat → List Char
  | 0 => ['0']
  | n + 1 => '1' :: encLen n

def decLen : List Char → Option (Nat × List Char)
  | '0' :: rest => some (0, rest)
  | '1' :: rest =>
    match decLen rest with
    | some (n, r) => some (n + 1, r)
    | none => none
  | _ => none

def takeChars : Nat → List Char → Option (List Char × List Char)
  | 0, cs => some ([], cs)
  | _ + 1, [] => none
  | n + 1, c :: cs =>
    match takeChars n cs with
    | some (a, b) => some (c :: a, b)
    | none => none

def encStr (s : String) : List Char := encLen s.data.length ++ s.data

def decStr (cs : List Char) : Option (String × List Char) :=
  match decLen cs with
  | some (n, rest) =>
    match takeChars n rest with
    | some (a, b) => some (String.mk a, b)
    | none => none
  | none => none

def encSub (s : Subreddit) : List Char :=
  encState s.state :: (encStr s.name ++ s.extra.data)

def decSub (cs : List Char) : Option Subreddit :=
  match cs with
  | [] => none
  | c :: rest =>
    match decState c with
    | none => none
    | some st =>
      match decStr rest with
      | none => none
      | some (n, rest2) => some ⟨n, st, String.mk rest2⟩

def encDelta (d : SubredditDelta) : List Char :=
  encState d.prev_state :: encSub d.subreddit

def decDelta (cs : List Char) : Option SubredditDelta :=
  match cs with
  | [] => none
  | c :: rest =>
    match decState c with
    | none => none
    | some p =>
      match decSub rest with
      | none => none
      | some s => some ⟨s, p⟩

def encStrs : List String → List Char
  | [] => []
  | s :: rest => encStr s ++ encStrs rest

def decStrs : Nat → List Char → Option (List String × List Char)
  | 0, cs => some ([], cs)
  | n + 1, cs =>
    match decStr cs with
    | none => none
    | some (s, rest) =>
      match decStrs n rest with
      | none => none
      | some (l, r) => some (s :: l, r)

def encSections (l : List String) : List Char := encLen l.length ++ encStrs l

def decSections (cs : List Char) : Option (List String) :=
  match decLen cs with
  | none => none
  | some (n, rest) =>
    match decStrs n rest with
    | some (l, []) => some l
    | _ => none

/-! ### Codec round-trip lemmas -/

theorem decState_encState (s : SubredditState) : decState (encState s) = some s := by
  cases s <;> rfl

theorem decLen_encLen (n : Nat) (rest : List Char) :
    decLen (encLen n ++ rest) = some (n, rest) := by
  induction n with
  | zero => rfl
  | succ k ih => simp [encLen, decLen, ih]

theorem takeChars_append (l rest : List Char) :
    takeChars l.length (l ++ rest) = some (l, rest) := by
  induction l with
  | nil => rfl
  | cons c cs ih => simp [takeChars, ih]

theorem decStr_encStr (s : String) (rest : List Char) :
    decStr (encStr s ++ rest) = some (s, rest) := by
  have ht : takeChars s.length (s.data ++ rest) = some (s.data, rest) :=
    takeChars_append s.data rest
  simp [decStr, encStr, List.append_assoc, decLen_encLen, ht]

theorem decSub_encSub (s : Subreddit) : decSub (encSub s) = some s := by
  simp [decSub, encSub, decState_encState, decStr_encStr]

theorem decDelta_encDelta (d : SubredditDelta) : decDelta (encDelta d) = some d := by
  simp [decDelta, encDelta, decState_encState, decSub_encSub]

theorem decStrs_encStrs (l : List String) (rest : List Char) :
    decStrs l.length (encStrs l ++ rest) = some (l, rest) := by
  induction l with
  | nil => rfl
  | cons s ss ih => simp [encStrs, decStrs, List.append_assoc, decStr_encStr, ih]

theorem decSections_encSections (l : List String) :
    decSections (encSections l) = some l := by
  have h := decStrs_encStrs l []
  simp at h
  simp [decSections, encSections, decLen_encLen, h]

/-! ### Store and connection model

The Redis server state visible to this module: the `subreddit` hash (an
association list from safe name to stored text), the `sections` key, and the
list of messages published so far, in order.  `sched` is the environment's
schedule of transport outcomes: each store operation consumes one entry
(`false` = transport failure); an empty schedule means every operation
succeeds. -/

structure Store where
  subreddit : List (String × String)
  sections : Option String
  published : List (String × String)
deriving DecidableEq, Repr

structure Conn where
  store : Store
  sched : List Bool
deriving DecidableEq, Repr

inductive RErr
  | transport
  | decodeErr
deriving DecidableEq, Repr

def takeOp (c : Conn) : Bool × Conn :=
  match c.sched with
  | [] => (true, c)
  | b :: rest => (b, { c with sched := rest })

def upsert (k v : String) : List (String × String) → List (String × String)
  | [] => [(k, v)]
  | (k1, v1) :: rest =>
    if k1 = k then (k, v) :: rest else (k1, v1) :: upsert k v rest

def hget (k : String) : List (String × String) → Option String
  | [] => none
  | (k1, v) :: rest => if k1 = k then some v else hget k rest

/-- The HSET transport operation on the `subreddit` hash. -/
def hset (field val : String) (c : Conn) : Except RErr Unit × Conn :=
  let (ok, c1) := takeOp c
  if ok then
    (.ok (), { c1 with store := { c1.store with subreddit := upsert field val c1.store.subreddit } })
  else (.error .transport, c1)

/-- The PUBLISH transport operation. -/
def publish (topic payload : String) (c : Conn) : Except RErr Unit × Conn :=
  let (ok, c1) := takeOp c
  if ok then
    (.ok (), { c1 with store := { c1.store with published := c1.store.published ++ [(topic, payload)] } })
  else (.error .transport, c1)

/-! ### The operations of `RedisHelper` (src/redis_helper.rs) -/

/-- Decode every stored value, failing if any one fails: the embedding of
`collect::<Result<Vec<Subreddit>, serde_json::Error>>()` in
`get_current_state`. -/
def decodeVals : List (String × String) → Option (List Subreddit)
  | [] => some []
  | p :: rest =>
    match decSub p.2.data with
    | none => none
    | some s =>
      match decodeVals rest with
      | none => none
      | some l => some (s :: l)

/-- `RedisHelper::get_current_state`: HGETALL on `subreddit`, then decode
every stored value; one malformed record fails the whole read. -/
def get_current_state (c : Conn) : Except RErr (List Subreddit) × Conn :=
  let (ok, c1) := takeOp c
  if ok then
    match decodeVals c1.store.subreddit with
    | some l => (.ok l, c1)
    | none => (.error .decodeErr, c1)
  else (.error .transport, c1)

/-- `RedisHelper::update_subreddit`: serialize the record and HSET it under
its safe name. -/
def update_subreddit (s : Subreddit) (c : Conn) : Except RErr Unit × Conn :=
  hset (safe_name s) (String.mk (encSub s)) c

/-- `RedisHelper::set_sections`: serialize the list and SET it under
`sections`. -/
def set_sections (l : List String) (c : Conn) : Except RErr Unit × Conn :=
  let (ok, c1) := takeOp c
  if ok then
    (.ok (), { c1 with store := { c1.store with sections := some (String.mk (encSections l)) } })
  else (.error .transport, c1)

/-- The built-in default label list of `get_sections`. -/
def defaultSections : List String :=
  ["40+ million", "30+ million", "20+ million", "10+ million", "5+ million",
   "1+ million", "500k+", "250k+", "100k+", "50k+", "5k+", "5k and below",
   "1k+", "1k and below"]

/-- `RedisHelper::get_sections`: GET `sections` (decoded back to a list by the
driver, modelled from the spec as the inverse of the writer's encoding); an
absent key yields the built-in default list. -/
def get_sections (c : Conn) : Except RErr (List String) × Conn :=
  let (ok, c1) := takeOp c
  if ok then
    match c1.store.sections with
    | none => (.ok defaultSections, c1)
    | some txt =>
      match decSections txt.data with
      | some l => (.ok l, c1)
      | none => (.error .decodeErr, c1)
  else (.error .transport, c1)

/-- `RedisHelper::send_delta`: if the delta is eligible
(`prev_state != UNKNOWN || (prev_state == UNKNOWN && state == PRIVATE)`),
wait on the rate limiter (time is modelled separately, see `admitTimeMs`) and
publish the serialized delta on `subreddit_updates`; otherwise do nothing and
return success. -/
def send_delta (d : SubredditDelta) (c : Conn) : Except RErr Unit × Conn :=
  if d.prev_state ≠ SubredditState.UNKNOWN ∨
      (d.prev_state = SubredditState.UNKNOWN ∧ d.subreddit.state = SubredditState.PRIVATE) then
    publish "subreddit_updates" (String.mk (encDelta d)) c
  else (.ok (), c)

/-- `RedisHelper::apply_delta`: persist the record first; on success, if the
state actually changed, route the delta through `send_delta`. -/
def apply_delta (d : SubredditDelta) (c : Conn) : Except RErr Unit × Conn :=
  match update_subreddit d.subreddit c with
  | (.error e, c1) => (.error e, c1)
  | (.ok _, c1) =>
    if d.prev_state ≠ d.subreddit.state then send_delta d c1 else (.ok (), c1)

/-- `new_delta_stream`: a fresh subscription to `subreddit_updates`, mapped
through payload decoding.  `arrivals` is the infinite sequence of raw message
payloads in arrival order; item `n` of the stream is the decoding of payload
`n`, a failure surfacing as an error item. -/
def delta_stream (arrivals : Nat → String) : Nat → Except RErr SubredditDelta :=
  fun n =>
    match decDelta (arrivals n).data with
    | some d => .ok d
    | none => .error .decodeErr

/-! ### Rate limiter timing model -/

/-- Refill interval in milliseconds of the token bucket: 2 tokens per second
(`Quota::per_second(2)` in `RedisHelper::new`). -/
def refillIntervalMs : Nat := 500

/-- Upper bound on the per-call random jitter, in milliseconds
(`Jitter::up_to(Duration::from_millis(10))` in `send_delta`). -/
def jitterMaxMs : Nat := 10

/-- Modelled from the spec: the governor-crate token bucket is outside src/.
Token `k` (1-indexed) becomes available at `(k-1) * refillIntervalMs`; N
eligible publish calls issued back-to-back are admitted in order, call `n`
waiting for both its predecessor and token `n`, plus its jitter.
`admitTimeMs jitter n` is the admission time in ms of the `n`-th call. -/
def admitTimeMs (jitter : Nat → Nat) : Nat → Nat
  | 0 => 0
  | n + 1 => max (admitTimeMs jitter n) (n * refillIntervalMs) + jitter (n + 1)

/-! ### Helper lemmas -/

theorem takeOp_nil (c : Conn) (h : c.sched = []) : takeOp c = (true, c) := by
  unfold takeOp
  rw [h]

theorem hget_upsert (k v : String) (l : List (String × String)) :
    hget k (upsert k v l) = some v := by
  induction l with
  | nil => simp [upsert, hget]
  | cons p rest ih =>
    obtain ⟨k1, v1⟩ := p
    by_cases h : k1 = k
    · simp [upsert, h, hget]
    · simp [upsert, h, hget, ih]

/-- C1: for a delta with `prev_state != UNKNOWN` and
`prev_state != subreddit.state`, `apply_delta` persists the record under its
safe name and publishes exactly one notification for it on
`subreddit_updates`. -/
theorem apply_delta_real_transition_publishes_once (d : SubredditDelta) (c : Conn)
    (h1 : d.prev_state ≠ SubredditState.UNKNOWN)
    (h2 : d.prev_state ≠ d.subreddit.state)
    (hc : c.sched = []) :
    (apply_delta d c).1 = Except.ok () ∧
    hget (safe_name d.subreddit) (apply_delta d c).2.store.subreddit
      = some (String.mk (encSub d.subreddit)) ∧
    (apply_delta d c).2.store.published
      = c.store.published ++ [("subreddit_updates", String.mk (encDelta d))] := by
  simp [apply_delta, update_subreddit, hset, takeOp_nil c hc, h2, send_delta, h1,
    publish, takeOp, hc, hget_upsert]

/-- C2: for a delta with `prev_state == subreddit.state`, `apply_delta`
persists the record but publishes nothing. -/
theorem apply_delta_noop_transition_silent (d : SubredditDelta) (c : Conn)
    (h : d.prev_state = d.subreddit.state)
    (hc : c.sched = []) :
    (apply_delta d c).1 = Except.ok () ∧
    hget (safe_name d.subreddit) (apply_delta d c).2.store.subreddit
      = some (String.mk (encSub d.subreddit)) ∧
    (apply_delta d c).2.store.published = c.store.published := by
  simp [apply_delta, update_subreddit, hset, takeOp_nil c hc, h, hget_upsert]

/-- C3: for a delta with `prev_state == UNKNOWN`, a notification goes out iff
the new state is `PRIVATE`; otherwise the publish path is a no-op returning
success and `apply_delta` still persists the record silently. -/
theorem apply_delta_unknown_prev_private_only (d : SubredditDelta) (c : Conn)
    (hp : d.prev_state = SubredditState.UNKNOWN)
    (hc : c.sched = []) :
    (send_delta d c).1 = Except.ok () ∧
    (apply_delta d c).1 = Except.ok () ∧
    hget (safe_name d.subreddit) (apply_delta d c).2.store.subreddit
      = some (String.mk (encSub d.subreddit)) ∧
    (apply_delta d c).2.store.published
      = (if d.subreddit.state = SubredditState.PRIVATE
         then c.store.published ++ [("subreddit_updates", String.mk (encDelta d))]
         else c.store.published) ∧
    (d.subreddit.state ≠ SubredditState.PRIVATE → (send_delta d c).2 = c) := by
  cases hs : d.subreddit.state <;>
    simp [apply_delta, update_subreddit, hset, takeOp_nil c hc, send_delta, hp, hs,
      publish, takeOp, hc, hget_upsert]

/-- C4: if the store write fails, `apply_delta` returns the transport error
and the whole store — the record hash and the published messages alike — is
untouched: no execution publishes without having persisted. -/
theorem apply_delta_write_failure_aborts (d : SubredditDelta) (c : Conn)
    (rest : List Bool) (hc : c.sched = false :: rest) :
    (apply_delta d c).1 = Except.error RErr.transport ∧
    (apply_delta d c).2.store = c.store := by
  simp [apply_delta, update_subreddit, hset, takeOp, hc]

theorem mem_decodeVals {l : List (String × String)} {r : List Subreddit}
    (h : decodeVals l = some r) :
    ∀ p ∈ l, ∀ s, decSub p.2.data = some s → s ∈ r := by
  induction l generalizing r with
  | nil =>
    intro p hp
    cases hp
  | cons q rest ih =>
    intro p hp s hs
    unfold decodeVals at h
    cases hq : decSub q.2.data with
    | none => rw [hq] at h; cases h
    | some s0 =>
      rw [hq] at h
      cases hrest : decodeVals rest with
      | none => rw [hrest] at h; cases h
      | some r0 =>
        rw [hrest] at h
        cases h
        rcases List.mem_cons.mp hp with rfl | hmem
        · rw [hq] at hs
          cases hs
          exact List.mem_cons_self _ _
        · exact List.mem_cons_of_mem _ (ih hrest p hmem s hs)

theorem decodeVals_eq_none {l : List (String × String)} (p : String × String)
    (hp : p ∈ l) (h : decSub p.2.data = none) : decodeVals l = none := by
  induction l with
  | nil => cases hp
  | cons q rest ih =>
    rcases List.mem_cons.mp hp with rfl | hmem
    · simp [decodeVals, h]
    · cases hq : decSub q.2.data with
      | none => simp [decodeVals, hq]
      | some s0 => simp [decodeVals, hq, ih hmem]

/-- C5: `get_current_state` returns every currently known record decoded from
its stored text; if any single stored value fails to decode, the whole call
fails with the decode error and returns no records. -/
theorem get_current_state_strict (c : Conn) (hc : c.sched = []) :
    (∀ l, decodeVals c.store.subreddit = some l →
        get_current_state c = (Except.ok l, c) ∧
        ∀ p ∈ c.store.subreddit, ∀ s, decSub p.2.data = some s → s ∈ l) ∧
    (∀ p ∈ c.store.subreddit, decSub p.2.data = none →
        get_current_state c = (Except.error RErr.decodeErr, c)) := by
  constructor
  · intro l hl
    refine ⟨?_, mem_decodeVals hl⟩
    simp [get_current_state, takeOp_nil c hc, hl]
  · intro p hp hdec
    simp [get_current_state, takeOp_nil c hc, decodeVals_eq_none p hp hdec]

/-- C6: `get_sections` yields the built-in 14-entry default, in its fixed
order, when the `sections` key was never written; and after a successful
`set_sections L`, `get_sections` yields exactly `L` in the same order. -/
theorem get_sections_default_and_roundtrip (L : List String) (c : Conn)
    (hc : c.sched = []) :
    defaultSections.length = 14 ∧
    (c.store.sections = none → get_sections c = (Except.ok defaultSections, c)) ∧
    (∀ c1, set_sections L c = (Except.ok (), c1) →
        get_sections c1 = (Except.ok L, c1)) := by
  refine ⟨rfl, ?_, ?_⟩
  · intro hnone
    simp [get_sections, takeOp_nil c hc, hnone]
  · intro c1 h
    simp [set_sections, takeOp_nil c hc] at h
    subst h
    simp [get_sections, takeOp, hc, decSections_encSections]

/-- C10: after `set_sections` succeeds with the empty list, `get_sections`
returns the empty list, not the built-in default: the default is substituted
only for an absent `sections` key, never for a stored empty sequence. -/
theorem get_sections_empty_is_not_default (c : Conn) (hc : c.sched = []) :
    (∀ c1, set_sections [] c = (Except.ok (), c1) →
        get_sections c1 = (Except.ok ([] : List String), c1) ∧
        c1.store.sections ≠ none) ∧
    ([] : List String) ≠ defaultSections := by
  constructor
  · intro c1 h
    simp [set_sections, takeOp_nil c hc] at h
    subst h
    constructor
    · simp [get_sections, takeOp, hc, decSections_encSections]
    · simp
  · simp [defaultSections]

/-- C7: the subscription stream yields, at each position of the arrival
order, the delta decoded from that message's payload, for every position of
the infinite sequence; a payload that fails to decode surfaces as an error
item instead of a delta. -/
theorem delta_stream_decodes_in_arrival_order (arrivals : Nat → String)
    (n : Nat) (d : SubredditDelta)
    (h : arrivals n = String.mk (encDelta d)) :
    delta_stream arrivals n = Except.ok d ∧
    ∀ m, decDelta (arrivals m).data = none →
        delta_stream arrivals m = Except.error RErr.decodeErr := by
  constructor
  · simp [delta_stream, h, decDelta_encDelta]
  · intro m hm
    simp [delta_stream, hm]

/-- C8: encoding an entity record or a delta to its text form and decoding it
back yields the original value in all modelled fields. -/
theorem encode_decode_roundtrip (s : Subreddit) (d : SubredditDelta) :
    decSub (encSub s) = some s ∧ decDelta (encDelta d) = some d :=
  ⟨decSub_encSub s, decDelta_encDelta d⟩

/-- C9: N eligible publish calls issued back-to-back through the shared token
bucket (2 tokens per second, per-call jitter at most 10 ms) are admitted no
earlier than `(N-1) * 500` ms — at least `(N-1)/2` seconds — and, within
jitter bounds, no later than `(N-1) * 500 + N * 10` ms. -/
theorem rate_limiter_admission_bounds (jitter : Nat → Nat) (N : Nat)
    (hj : ∀ i, jitter i ≤ jitterMaxMs) :
    (N - 1) * refillIntervalMs ≤ admitTimeMs jitter N ∧
    admitTimeMs jitter N ≤ (N - 1) * refillIntervalMs + N * jitterMaxMs := by
  constructor
  · cases N with
    | zero => simp [admitTimeMs]
    | succ n =>
      calc (n + 1 - 1) * refillIntervalMs = n * refillIntervalMs := by simp
        _ ≤ max (admitTimeMs jitter n) (n * refillIntervalMs) := Nat.le_max_right _ _
        _ ≤ admitTimeMs jitter (n + 1) := Nat.le_add_right _ _
  · induction N with
    | zero => simp [admitTimeMs]
    | succ n ih =>
      have hstep : max (admitTimeMs jitter n) (n * refillIntervalMs)
          ≤ n * refillIntervalMs + n * jitterMaxMs := by
        apply Nat.max_le.mpr
        constructor
        · calc admitTimeMs jitter n
              ≤ (n - 1) * refillIntervalMs + n * jitterMaxMs := ih
            _ ≤ n * refillIntervalMs + n * jitterMaxMs :=
              Nat.add_le_add_right (Nat.mul_le_mul_right _ (Nat.sub_le n 1)) _
        · exact Nat.le_add_right _ _
      calc admitTimeMs jitter (n + 1)
          = max (admitTimeMs jitter n) (n * refillIntervalMs) + jitter (n + 1) := rfl
        _ ≤ (n * refillIntervalMs + n * jitterMaxMs) + jitterMaxMs :=
          Nat.add_le_add hstep (hj (n + 1))
        _ = (n + 1 - 1) * refillIntervalMs + (n + 1) * jitterMaxMs := by
          simp only [Nat.add_sub_cancel, Nat.succ_mul]
          omega

/-! ### Concrete instances for the witnesses -/

def conn0 : Conn := ⟨⟨[], none, []⟩, []⟩

def connFail : Conn := ⟨⟨[], none, []⟩, [false]⟩

def deltaC1 : SubredditDelta := ⟨⟨"foo", .PRIVATE, ""⟩, .PUBLIC⟩

def deltaC2 : SubredditDelta := ⟨⟨"foo", .PUBLIC, ""⟩, .PUBLIC⟩

def deltaC3 : SubredditDelta := ⟨⟨"foo", .PUBLIC, ""⟩, .UNKNOWN⟩

def subBar : Subreddit := ⟨"bar", .PUBLIC, ""⟩

def connC5 : Conn := ⟨⟨[("bar", String.mk (encSub subBar))], none, []⟩, []⟩

def connA : Conn := ⟨⟨[], some (String.mk (encSections ["alpha"])), []⟩, []⟩

def connE : Conn := ⟨⟨[], some (String.mk (encSections [])), []⟩, []⟩

def jitter0 : Nat → Nat := fun _ => 0

def arr0 : Nat → String := fun _ => String.mk (encDelta deltaC1)

/-- Witness for C1 at a concrete PUBLIC-to-PRIVATE transition. -/
theorem apply_delta_real_transition_publishes_once_w :
    deltaC1.prev_state ≠ SubredditState.UNKNOWN ∧
    deltaC1.prev_state ≠ deltaC1.subreddit.state ∧
    conn0.sched = [] ∧
    ((apply_delta deltaC1 conn0).1 = Except.ok () ∧
     hget (safe_name deltaC1.subreddit) (apply_delta deltaC1 conn0).2.store.subreddit
       = some (String.mk (encSub deltaC1.subreddit)) ∧
     (apply_delta deltaC1 conn0).2.store.published
       = conn0.store.published ++ [("subreddit_updates", String.mk (encDelta deltaC1))]) :=
  ⟨by decide, by decide, rfl,
   apply_delta_real_transition_publishes_once deltaC1 conn0 (by decide) (by decide) rfl⟩

/-- Witness for C2 at a concrete PUBLIC-to-PUBLIC no-op transition. -/
theorem apply_delta_noop_transition_silent_w :
    deltaC2.prev_state = deltaC2.subreddit.state ∧
    conn0.sched = [] ∧
    ((apply_delta deltaC2 conn0).1 = Except.ok () ∧
     hget (safe_name deltaC2.subreddit) (apply_delta deltaC2 conn0).2.store.subreddit
       = some (String.mk (encSub deltaC2.subreddit)) ∧
     (apply_delta deltaC2 conn0).2.store.published = conn0.store.published) :=
  ⟨rfl, rfl, apply_delta_noop_transition_silent deltaC2 conn0 rfl rfl⟩

/-- Witness for C3 at a newly discovered PUBLIC entity: persisted, nothing
published, and the publish path returns success. -/
theorem apply_delta_unknown_prev_private_only_w :
    deltaC3.prev_state = SubredditState.UNKNOWN ∧
    conn0.sched = [] ∧
    (send_delta deltaC3 conn0).1 = Except.ok () ∧
    (apply_delta deltaC3 conn0).1 = Except.ok () ∧
    hget (safe_name deltaC3.subreddit) (apply_delta deltaC3 conn0).2.store.subreddit
      = some (String.mk (encSub deltaC3.subreddit)) ∧
    (apply_delta deltaC3 conn0).2.store.published
      = (if deltaC3.subreddit.state = SubredditState.PRIVATE
         then conn0.store.published ++ [("subreddit_updates", String.mk (encDelta deltaC3))]
         else conn0.store.published) ∧
    (send_delta deltaC3 conn0).2 = conn0 :=
  ⟨rfl, rfl,
   (apply_delta_unknown_prev_private_only deltaC3 conn0 rfl rfl).1,
   (apply_delta_unknown_prev_private_only deltaC3 conn0 rfl rfl).2.1,
   (apply_delta_unknown_prev_private_only deltaC3 conn0 rfl rfl).2.2.1,
   (apply_delta_unknown_prev_private_only deltaC3 conn0 rfl rfl).2.2.2.1,
   (apply_delta_unknown_prev_private_only deltaC3 conn0 rfl rfl).2.2.2.2 (by decide)⟩

/-- Witness for C4 on a connection whose next transport operation fails. -/
theorem apply_delta_write_failure_aborts_w :
    connFail.sched = false :: [] ∧
    ((apply_delta deltaC1 connFail).1 = Except.error RErr.transport ∧
     (apply_delta deltaC1 connFail).2.store = connFail.store) :=
  ⟨rfl, apply_delta_write_failure_aborts deltaC1 connFail [] rfl⟩

/-- Witness for C5 on a store holding one well-formed record. -/
theorem get_current_state_strict_w :
    connC5.sched = [] ∧
    decodeVals connC5.store.subreddit = some [subBar] ∧
    get_current_state connC5 = (Except.ok [subBar], connC5) :=
  ⟨rfl, by decide, ((get_current_state_strict connC5 rfl).1 [subBar] (by decide)).1⟩

/-- Witness for C6: the default on a fresh store, and the round trip for the
one-element list. -/
theorem get_sections_default_and_roundtrip_w :
    conn0.sched = [] ∧
    conn0.store.sections = none ∧
    defaultSections.length = 14 ∧
    get_sections conn0 = (Except.ok defaultSections, conn0) ∧
    set_sections ["alpha"] conn0 = (Except.ok (), connA) ∧
    get_sections connA = (Except.ok ["alpha"], connA) :=
  ⟨rfl, rfl,
   (get_sections_default_and_roundtrip ["alpha"] conn0 rfl).1,
   (get_sections_default_and_roundtrip ["alpha"] conn0 rfl).2.1 rfl,
   rfl,
   (get_sections_default_and_roundtrip ["alpha"] conn0 rfl).2.2 connA rfl⟩

/-- Witness for C7 on a stream whose every payload encodes `deltaC1`. -/
theorem delta_stream_decodes_in_arrival_order_w :
    arr0 0 = String.mk (encDelta deltaC1) ∧
    delta_stream arr0 0 = Except.ok deltaC1 :=
  ⟨rfl, (delta_stream_decodes_in_arrival_order arr0 0 deltaC1 rfl).1⟩

/-- Witness for C9 at N = 3 with zero jitter. -/
theorem rate_limiter_admission_bounds_w :
    jitter0 1 ≤ jitterMaxMs ∧
    ((3 - 1) * refillIntervalMs ≤ admitTimeMs jitter0 3 ∧
     admitTimeMs jitter0 3 ≤ (3 - 1) * refillIntervalMs + 3 * jitterMaxMs) :=
  ⟨by decide, rate_limiter_admission_bounds jitter0 3 (fun i => Nat.zero_le _)⟩

/-- Witness for C10: storing the empty list and reading it back. -/
theorem get_sections_empty_is_not_default_w :
    conn0.sched = [] ∧
    set_sections [] conn0 = (Except.ok (), connE) ∧
    get_sections connE = (Except.ok ([] : List String), connE) ∧
    connE.store.sections ≠ none ∧
    ([] : List String) ≠ defaultSections :=
  ⟨rfl, rfl,
   ((get_sections_empty_is_not_default conn0 rfl).1 connE rfl).1,
   ((get_sections_empty_is_not_default conn0 rfl).1 connE rfl).2,
   (get_sections_empty_is_not_default conn0 rfl).2⟩
